import Mathlib

/-!
Shallow embedding of the loan-ledger canister in
`src/dfinity_js_backend/src/index.ts` (azle/TypeScript).

Modelling conventions:
* `nat64` fields are modelled as `Int`: at runtime they are JavaScript
  bigints, and `loan.amount -= repaymentAmount` (line 265) can produce a
  negative bigint, so `Nat` would be unfaithful.  JavaScript bigint `/`
  truncates toward zero, which is `Int.tdiv`; bigint division by `0n`
  throws, which is modelled by `Option` (`none` = the call traps and the
  state is rolled back).
* A `Principal` is identified with its textual representation.
* `StableBTreeMap` is modelled as an association list with upsert
  `insertKV`, lookup `getKV` and `valuesKV`; iteration order is the
  insertion order of the model (every claim below is order-insensitive).
* `loanRequestsStorage` is declared with key type `Principal` (line 106),
  but `acceptLoanRequest` (line 148) calls `get` with the textual request
  id while `createLoanRequest` (line 142) inserts under `ic.caller()`.
  Since the code is untyped at runtime, the key space is modelled as the
  disjoint union `ReqKey` of principals and texts, so that both calls are
  translated exactly as written.  (The declared value type `Vec(LoanRequest)`
  is likewise not what `insert` actually stores: line 142 stores a bare
  `LoanRequest`, and line 153 reads it back as one, so the model stores
  a bare `LoanRequest`.)
* `ic.caller()`, `ic.time()` and the ids produced by `uuidv4()` are
  passed to each operation as explicit parameters.
-/

deriving instance DecidableEq for Except

namespace LoanLedger

abbrev Principal := String

/-- Variant `LoanStatus` (index.ts lines 26-30); each alternative carries
its `text` payload, because the code compares `loan.status.Active` with
the string literal `"ACTIVE"`. -/
inductive LoanStatus where
  | Active (label : String)
  | Completed (label : String)
  | Defaulted (label : String)
  deriving DecidableEq, Repr

/-- Record `LoanRequest` (index.ts lines 46-50). -/
structure LoanRequest where
  amount : Int
  interestRate : Int
  duration : Int
  deriving DecidableEq, Repr

/-- Record `Loan` (index.ts lines 33-43). -/
structure Loan where
  id : String
  amount : Int
  interestRate : Int
  duration : Int
  borrower : Principal
  lender : Option Principal
  status : LoanStatus
  creationDate : Int
  dueDate : Int
  deriving DecidableEq, Repr

/-- Record `UserProfile` (index.ts lines 53-57). -/
structure UserProfile where
  principal : Principal
  name : String
  balance : Int
  deriving DecidableEq, Repr

/-- Variant `Message` (index.ts lines 60-65). -/
inductive Message where
  | NotFound (msg : String)
  | InvalidPayload (msg : String)
  | PaymentFailed (msg : String)
  | PaymentCompleted (msg : String)
  deriving DecidableEq, Repr

/-- Untyped key space of `loanRequestsStorage`: the map is declared with
`Principal` keys but is queried with a text id (see the header comment). -/
inductive ReqKey where
  | principal (p : Principal)
  | text (s : String)
  deriving DecidableEq, Repr

/-- Upsert of `StableBTreeMap.insert`: overwrite in place, append if new. -/
def insertKV {κ α : Type} [DecidableEq κ] (k : κ) (v : α) : List (κ × α) → List (κ × α)
  | [] => [(k, v)]
  | (k', v') :: rest => if k = k' then (k, v) :: rest else (k', v') :: insertKV k v rest

/-- Lookup of `StableBTreeMap.get`. -/
def getKV {κ α : Type} [DecidableEq κ] (k : κ) : List (κ × α) → Option α
  | [] => none
  | (k', v) :: rest => if k = k' then some v else getKV k rest

/-- Snapshot of `StableBTreeMap.values()`. -/
def valuesKV {κ α : Type} (m : List (κ × α)) : List α :=
  m.map Prod.snd

/-- The three stable maps of the canister (index.ts lines 103-109). -/
structure State where
  loansStorage : List (String × Loan)
  loanRequestsStorage : List (ReqKey × LoanRequest)
  userProfiles : List (Principal × UserProfile)
  deriving DecidableEq, Repr

/-- State of a freshly deployed canister: all three maps empty. -/
def initState : State := ⟨[], [], []⟩

/-- Translation of `calculateAccumulatedInterest` (index.ts lines 295-299):
`loan.amount * loan.interestRate / 100n * (ic.time() - loan.creationDate) / (365n * 24n * 60n * 60n)`,
left-associated with truncating bigint division at each `/`. -/
def calculateAccumulatedInterest (now : Int) (loan : Loan) : Int :=
  Int.tdiv (Int.tdiv (loan.amount * loan.interestRate) 100 * (now - loan.creationDate))
    (365 * 24 * 60 * 60)

/-- Translation of `shouldAutomateRepayment` (index.ts lines 302-305):
`ic.time() >= loan.dueDate`. -/
def shouldAutomateRepayment (now : Int) (loan : Loan) : Bool :=
  decide (loan.dueDate ≤ now)

/-- Translation of `calculateRepaymentAmount` (index.ts lines 308-312).
`loan.amount / loan.duration` is bigint division: it throws (traps) when
`loan.duration = 0n`, hence the `Option`. -/
def calculateRepaymentAmount (now : Int) (loan : Loan) : Option Int :=
  let accumulatedInterest := calculateAccumulatedInterest now loan
  if loan.duration = 0 then none
  else some (accumulatedInterest + Int.tdiv loan.amount loan.duration)

/-- Translation of `calculateDueDate` (index.ts lines 315-317):
`ic.time() + duration`. -/
def calculateDueDate (now : Int) (duration : Int) : Int :=
  now + duration

/-- Translation of `loanIsFullyRepaid` (index.ts lines 320-323): the body
is the stub `return false`. -/
def loanIsFullyRepaid (_loan : Loan) : Bool :=
  false

/-- Translation of `loanIsDefaulted` (index.ts lines 326-329): the body
is the stub `return false`. -/
def loanIsDefaulted (_loan : Loan) : Bool :=
  false

/-- The test `loan.status.Active === "ACTIVE"` (index.ts lines 219, 244, 280):
true exactly when the status is `Active` with payload `"ACTIVE"`. -/
def isActiveACTIVE (loan : Loan) : Bool :=
  match loan.status with
  | .Active label => label == "ACTIVE"
  | _ => false

/-- Translation of `registerUser` (index.ts lines 114-123). -/
def registerUser (caller : Principal) (name : String) (s : State) :
    Except Message String × State :=
  let userProfile : UserProfile := { principal := caller, name := name, balance := 0 }
  (Except.ok ("User " ++ name ++ " registered successfully with principal " ++ caller),
   { s with userProfiles := insertKV caller userProfile s.userProfiles })

/-- Translation of `saveFunds` (index.ts lines 126-137). -/
def saveFunds (caller : Principal) (amount : Int) (s : State) :
    Except Message String × State :=
  match getKV caller s.userProfiles with
  | none => (Except.error (Message.NotFound "User not found"), s)
  | some user =>
    let user' := { user with balance := user.balance + amount }
    (Except.ok ("Amount " ++ toString amount ++ " saved successfully."),
     { s with userProfiles := insertKV user'.principal user' s.userProfiles })

/-- Translation of `createLoanRequest` (index.ts lines 140-144): generate
`loanRequestId`, insert the request under `ic.caller()`, return the id. -/
def createLoanRequest (caller : Principal) (freshId : String) (request : LoanRequest)
    (s : State) : Except Message String × State :=
  (Except.ok freshId,
   { s with loanRequestsStorage :=
       insertKV (ReqKey.principal caller) request s.loanRequestsStorage })

/-- Translation of `acceptLoanRequest` (index.ts lines 147-168): look the
request up under the text id, build the loan, insert it under `loan.id`. -/
def acceptLoanRequest (caller : Principal) (now : Int) (freshId : String)
    (loanRequestId : String) (s : State) : Except Message Loan × State :=
  match getKV (ReqKey.text loanRequestId) s.loanRequestsStorage with
  | none =>
    (Except.error (Message.NotFound ("Loan request with id=" ++ loanRequestId ++ " not found")), s)
  | some request =>
    let loan : Loan :=
      { id := freshId
        amount := request.amount
        interestRate := request.interestRate
        duration := request.duration
        borrower := caller
        lender := none
        status := LoanStatus.Active "ACTIVE"
        creationDate := now
        dueDate := now + request.duration }
    (Except.ok loan, { s with loansStorage := insertKV loan.id loan s.loansStorage })

/-- Translation of `makeRepayment` (index.ts lines 171-187): the only
mutation is guarded by the stub `loanIsFullyRepaid`. -/
def makeRepayment (loanId : String) (repaymentAmount : Int) (s : State) :
    Except Message String × State :=
  match getKV loanId s.loansStorage with
  | none => (Except.error (Message.NotFound ("Loan with id=" ++ loanId ++ " not found")), s)
  | some loan =>
    let s' :=
      if loanIsFullyRepaid loan then
        { s with loansStorage :=
            insertKV loan.id { loan with status := LoanStatus.Completed "COMPLETED" } s.loansStorage }
      else s
    (Except.ok ("Repayment of " ++ toString repaymentAmount ++ " for loan id=" ++ loanId ++ " successful"), s')

/-- Translation of `getLoanStatus` (index.ts lines 190-196). -/
def getLoanStatus (loanId : String) (s : State) : Except Message LoanStatus :=
  match getKV loanId s.loansStorage with
  | none => Except.error (Message.NotFound ("Loan with id=" ++ loanId ++ " not found"))
  | some loan => Except.ok loan.status

/-- Translation of `checkForDefault` (index.ts lines 199-208): filter the
snapshot by `loanIsDefaulted`, set each filtered loan to Defaulted and
re-insert it, return the filtered ids. -/
def checkForDefault (s : State) : List String × State :=
  let defaultedLoans := (valuesKV s.loansStorage).filter loanIsDefaulted
  let loans' := defaultedLoans.foldl
    (fun m loan => insertKV loan.id { loan with status := LoanStatus.Defaulted "DEFAULTED" } m)
    s.loansStorage
  (defaultedLoans.map Loan.id, { s with loansStorage := loans' })

/-- Translation of `modifyLoanTerms` (index.ts lines 211-231). -/
def modifyLoanTerms (now : Int) (loanId : String) (newTerms : LoanRequest) (s : State) :
    Except Message Loan × State :=
  match getKV loanId s.loansStorage with
  | none => (Except.error (Message.NotFound ("Loan with id=" ++ loanId ++ " not found")), s)
  | some loan =>
    if !(isActiveACTIVE loan) then
      (Except.error (Message.InvalidPayload "Loan modification is only allowed for active loans."), s)
    else
      let loan' := { loan with
        amount := newTerms.amount
        interestRate := newTerms.interestRate
        duration := newTerms.duration
        dueDate := calculateDueDate now newTerms.duration }
      (Except.ok loan', { s with loansStorage := insertKV loan'.id loan' s.loansStorage })

/-- The reference comparison `loan.lender !== None` (index.ts line 237):
`None` is the azle module-level constant, but a loan obtained from
`loansStorage.values()` carries a freshly decoded Opt wrapper object
(`{Some: p}` or `{None: null}`), which is never reference-equal to that
constant — so the test is true for every stored loan, whatever its
`lender` field holds. -/
def lenderNotNoneRef (_loan : Loan) : Bool :=
  true

/-- Translation of the lender half of the `getUserLoanHistory` filter
(index.ts line 237):
`loan.lender !== None && loan.lender.toText() === userPrincipal.toText()`.
The first conjunct is the reference test `lenderNotNoneRef`, which passes
for every decoded loan; `.toText()` is then called on the Opt wrapper
itself, which has no such method, so the branch throws whenever it is
evaluated — `none` models that trap.  (If the reference test could fail,
the `&&` would short-circuit to `false`, hence the dead `some false`
branch.)  The branch can never evaluate to a match. -/
def lenderMatches (loan : Loan) (_userPrincipal : Principal) : Option Bool :=
  if lenderNotNoneRef loan then none
  else some false

/-- Filter callback of `getUserLoanHistory` (index.ts lines 235-238),
applied to the scanned loans left to right: `||` short-circuits on the
borrower test, and when the borrower does not match, the lender branch is
evaluated — and throws (see `lenderMatches`), aborting the whole query. -/
def filterUserLoans (userPrincipal : Principal) : List Loan → Option (List Loan)
  | [] => some []
  | loan :: rest =>
    if loan.borrower == userPrincipal then
      (filterUserLoans userPrincipal rest).map (fun kept => loan :: kept)
    else
      match lenderMatches loan userPrincipal with
      | none => none
      | some b =>
        (filterUserLoans userPrincipal rest).map
          (fun kept => if b then loan :: kept else kept)

/-- Translation of `getUserLoanHistory` (index.ts lines 234-240): a full
scan filtered by the borrower-or-lender callback; a throw inside the
callback traps the whole query (`none`, no result). -/
def getUserLoanHistory (userPrincipal : Principal) (s : State) : Option (List Loan) :=
  filterUserLoans userPrincipal (valuesKV s.loansStorage)

/-- Translation of `accumulateInterest` (index.ts lines 243-255): filter
the snapshot by `loan.status.Active === "ACTIVE"`, add the computed
interest to each filtered loan's amount and re-insert it. -/
def accumulateInterest (now : Int) (s : State) : List String × State :=
  let activeLoans := (valuesKV s.loansStorage).filter isActiveACTIVE
  let loans' := activeLoans.foldl
    (fun m loan =>
      insertKV loan.id { loan with amount := loan.amount + calculateAccumulatedInterest now loan } m)
    s.loansStorage
  (activeLoans.map Loan.id, { s with loansStorage := loans' })

/-- One iteration of the `forEach` in `automateLoanRepayment` (index.ts
lines 262-268): `none` propagates a trap of `calculateRepaymentAmount`. -/
def automateStep (now : Int) (acc : Option (List (String × Loan))) (loan : Loan) :
    Option (List (String × Loan)) :=
  match acc with
  | none => none
  | some m =>
    match calculateRepaymentAmount now loan with
    | none => none
    | some repaymentAmount =>
      some (insertKV loan.id { loan with amount := loan.amount - repaymentAmount } m)

/-- Translation of `automateLoanRepayment` (index.ts lines 258-271): filter
the snapshot by `shouldAutomateRepayment`, deduct the computed repayment
from each filtered loan and re-insert it.  A trap anywhere in the sweep
rolls the whole call back (`none`). -/
def automateLoanRepayment (now : Int) (s : State) : Option (List String × State) :=
  let loansForRepayment := (valuesKV s.loansStorage).filter (shouldAutomateRepayment now)
  match loansForRepayment.foldl (automateStep now) (some s.loansStorage) with
  | none => none
  | some loans' => some (loansForRepayment.map Loan.id, { s with loansStorage := loans' })

/-- Translation of `requestLoanExtension` (index.ts lines 274-291). -/
def requestLoanExtension (now : Int) (loanId : String) (newDuration : Int) (s : State) :
    Except Message Loan × State :=
  match getKV loanId s.loansStorage with
  | none => (Except.error (Message.NotFound ("Loan with id=" ++ loanId ++ " not found")), s)
  | some loan =>
    if !(isActiveACTIVE loan) then
      (Except.error (Message.InvalidPayload "Loan extension is only allowed for active loans."), s)
    else if newDuration ≤ loan.duration then
      (Except.error (Message.InvalidPayload "New duration must be longer than the current duration."), s)
    else
      let loan' := { loan with duration := newDuration, dueDate := calculateDueDate now newDuration }
      (Except.ok loan', { s with loansStorage := insertKV loan'.id loan' s.loansStorage })

/-- Well-formedness of the loans map: every key is the id of the stored
loan (all inserts into `loansStorage` use `loan.id` as the key) and keys
are pairwise distinct (a map stores one value per key). -/
def LoansWF (m : List (String × Loan)) : Prop :=
  (∀ kv ∈ m, kv.1 = kv.2.id) ∧ (m.map Prod.fst).Nodup

/-- Every loan stored in the map has no lender. -/
def LendersNone (m : List (String × Loan)) : Prop :=
  ∀ loan ∈ valuesKV m, loan.lender = none

/-- Every loan stored in the state has no lender. -/
def LenderFree (s : State) : Prop :=
  LendersNone s.loansStorage

/-- States reachable from a fresh deployment by any sequence of update
calls, with arbitrary callers, times, generated ids and arguments.  For
`automateLoanRepayment` only a non-trapping call (`some`) produces a new
state: a trap rolls the canister state back. -/
inductive Reachable : State → Prop where
  | init : Reachable initState
  | registerUser (caller : Principal) (name : String) (s : State) :
      Reachable s → Reachable (registerUser caller name s).2
  | saveFunds (caller : Principal) (amount : Int) (s : State) :
      Reachable s → Reachable (saveFunds caller amount s).2
  | createLoanRequest (caller : Principal) (freshId : String) (request : LoanRequest) (s : State) :
      Reachable s → Reachable (createLoanRequest caller freshId request s).2
  | acceptLoanRequest (caller : Principal) (now : Int) (freshId loanRequestId : String) (s : State) :
      Reachable s → Reachable (acceptLoanRequest caller now freshId loanRequestId s).2
  | makeRepayment (loanId : String) (amount : Int) (s : State) :
      Reachable s → Reachable (makeRepayment loanId amount s).2
  | checkForDefault (s : State) :
      Reachable s → Reachable (checkForDefault s).2
  | modifyLoanTerms (now : Int) (loanId : String) (newTerms : LoanRequest) (s : State) :
      Reachable s → Reachable (modifyLoanTerms now loanId newTerms s).2
  | accumulateInterest (now : Int) (s : State) :
      Reachable s → Reachable (accumulateInterest now s).2
  | automateLoanRepayment (now : Int) (s : State) (ids : List String) (s' : State) :
      Reachable s → automateLoanRepayment now s = some (ids, s') → Reachable s'
  | requestLoanExtension (now : Int) (loanId : String) (newDuration : Int) (s : State) :
      Reachable s → Reachable (requestLoanExtension now loanId newDuration s).2

/-- Loan update performed by the success branch of `requestLoanExtension`
(index.ts lines 287-288). -/
def extendedLoan (now newDuration : Int) (loan : Loan) : Loan :=
  { loan with duration := newDuration, dueDate := calculateDueDate now newDuration }

/-- Loan update performed by the success branch of `modifyLoanTerms`
(index.ts lines 224-227). -/
def modifiedLoan (now : Int) (newTerms : LoanRequest) (loan : Loan) : Loan :=
  { loan with amount := newTerms.amount, interestRate := newTerms.interestRate,
              duration := newTerms.duration, dueDate := calculateDueDate now newTerms.duration }

/-- Only the `Active "ACTIVE"` status (the one value the program ever
constructs for an active loan) passes the `loan.status.Active === "ACTIVE"`
test. -/
def CanonicalStatus (loan : Loan) : Prop :=
  loan.status = LoanStatus.Active "ACTIVE" ∨ loan.status = LoanStatus.Completed "COMPLETED" ∨
    loan.status = LoanStatus.Defaulted "DEFAULTED"

/-- Simple interest as the spec words it (spec section 4.2, `accrueInterest`):
`interest = floor(amount * interestRate * (now - creationDate) / (rateBasis * secondsPerYear))`
with `rateBasis = 100` and `secondsPerYear = 365*24*60*60` — a single floor
over the exact product.  Stated only to compare the code's formula against
the spec's. -/
def specSimpleInterest (amount interestRate now creationDate : Int) : Int :=
  Int.fdiv (amount * interestRate * (now - creationDate)) (100 * (365 * 24 * 60 * 60))

/-- Loan request used in the concrete runs below. -/
def sampleRequest : LoanRequest := { amount := 1000, interestRate := 5, duration := 3600 }

/-- State right after `createLoanRequest` was called by `"alice"` on a fresh
canister, with generated request id `"r1"`. -/
def c1State : State := (createLoanRequest "alice" "r1" sampleRequest initState).2

/-- An active loan as `acceptLoanRequest` would build it at time 0 from
`sampleRequest`. -/
def c2Loan : Loan :=
  { id := "L1", amount := 1000, interestRate := 5, duration := 3600, borrower := "alice",
    lender := none, status := LoanStatus.Active "ACTIVE", creationDate := 0, dueDate := 3600 }

/-- A store holding the single active loan `c2Loan`. -/
def c2State : State := ⟨[("L1", c2Loan)], [], []⟩

/-- Same shape as `c2Loan`, for the repayment run. -/
def c3Loan : Loan :=
  { id := "L3", amount := 1000, interestRate := 5, duration := 3600, borrower := "alice",
    lender := none, status := LoanStatus.Active "ACTIVE", creationDate := 0, dueDate := 3600 }

/-- A store holding the single active loan `c3Loan`. -/
def c3State : State := ⟨[("L3", c3Loan)], [], []⟩

/-- A Defaulted (terminal) loan that is past due: `dueDate = 10`. -/
def c4Loan : Loan :=
  { id := "D1", amount := 1000, interestRate := 5, duration := 10, borrower := "bob",
    lender := none, status := LoanStatus.Defaulted "DEFAULTED", creationDate := 0, dueDate := 10 }

/-- A store holding only the defaulted loan `c4Loan`. -/
def c4State : State := ⟨[("D1", c4Loan)], [], []⟩

/-- A Completed (terminal) loan that is not yet due at time 5. -/
def c4wLoan : Loan :=
  { id := "K1", amount := 500, interestRate := 10, duration := 20, borrower := "bob",
    lender := none, status := LoanStatus.Completed "COMPLETED", creationDate := 0, dueDate := 20 }

/-- A store holding only the completed loan `c4wLoan`. -/
def c4wState : State := ⟨[("K1", c4wLoan)], [], []⟩

/-- A store holding one pending loan request under the text key `"r1"`. -/
def c5State : State := ⟨[], [(ReqKey.text "r1", sampleRequest)], []⟩

/-- An active loan for the extension run. -/
def c6Loan : Loan :=
  { id := "L6", amount := 1000, interestRate := 5, duration := 3600, borrower := "alice",
    lender := none, status := LoanStatus.Active "ACTIVE", creationDate := 0, dueDate := 3600 }

/-- A store holding the single active loan `c6Loan`. -/
def c6State : State := ⟨[("L6", c6Loan)], [], []⟩

/-- Active loan with `amount = 1`, `interestRate = 50`: the code's early
division `1 * 50 / 100` truncates to `0`. -/
def c7Loan : Loan :=
  { id := "I1", amount := 1, interestRate := 50, duration := 3600, borrower := "alice",
    lender := none, status := LoanStatus.Active "ACTIVE", creationDate := 0, dueDate := 3600 }

/-- A store holding only `c7Loan`. -/
def c7State : State := ⟨[("I1", c7Loan)], [], []⟩

/-- Active loan with `duration = 0` (so `dueDate = creationDate`): selected
by the sweep as soon as `now ≥ 0`. -/
def c8Loan : Loan :=
  { id := "Z1", amount := 1000, interestRate := 5, duration := 0, borrower := "carol",
    lender := none, status := LoanStatus.Active "ACTIVE", creationDate := 0, dueDate := 0 }

/-- A store holding only the zero-duration loan `c8Loan`. -/
def c8State : State := ⟨[("Z1", c8Loan)], [], []⟩

/-- An active loan for the repayment frame run. -/
def c9Loan : Loan :=
  { id := "L9", amount := 1000, interestRate := 5, duration := 3600, borrower := "alice",
    lender := none, status := LoanStatus.Active "ACTIVE", creationDate := 0, dueDate := 3600 }

/-- A store holding the single loan `c9Loan`. -/
def c9State : State := ⟨[("L9", c9Loan)], [], []⟩

/-- A lender-free loan for the history filter run. -/
def c10Loan : Loan :=
  { id := "W1", amount := 1000, interestRate := 5, duration := 3600, borrower := "alice",
    lender := none, status := LoanStatus.Active "ACTIVE", creationDate := 0, dueDate := 3600 }

/-- A store holding the single loan `c10Loan`, which has no lender. -/
def c10State : State := ⟨[("W1", c10Loan)], [], []⟩

theorem getKV_insertKV_self {κ α : Type} [DecidableEq κ] (k : κ) (v : α) (m : List (κ × α)) :
    getKV k (insertKV k v m) = some v := by
  induction m with
  | nil => simp [insertKV, getKV]
  | cons kv rest ih =>
    obtain ⟨k', v'⟩ := kv
    by_cases h : k = k'
    · simp [insertKV, getKV, h]
    · simp [insertKV, getKV, h, ih]

theorem getKV_insertKV_ne {κ α : Type} [DecidableEq κ] {k k' : κ} (v : α) (m : List (κ × α))
    (h : k ≠ k') : getKV k (insertKV k' v m) = getKV k m := by
  induction m with
  | nil => simp [insertKV, getKV, h]
  | cons kv rest ih =>
    obtain ⟨k'', v''⟩ := kv
    by_cases h' : k' = k''
    · subst h'
      simp [insertKV, getKV, h]
    · by_cases h'' : k = k''
      · simp [insertKV, getKV, h', h'']
      · simp [insertKV, getKV, h', h'', ih]

theorem mem_of_getKV_eq_some {κ α : Type} [DecidableEq κ] {k : κ} {v : α} :
    ∀ {m : List (κ × α)}, getKV k m = some v → (k, v) ∈ m := by
  intro m
  induction m with
  | nil => simp [getKV]
  | cons kv rest ih =>
    obtain ⟨k', v'⟩ := kv
    by_cases h : k = k'
    · subst h
      simp only [getKV, if_pos rfl]
      rintro ⟨rfl⟩
      exact List.mem_cons_self _ _
    · simp only [getKV, if_neg h]
      intro hg
      exact List.mem_cons_of_mem _ (ih hg)

theorem mem_valuesKV_of_getKV {κ α : Type} [DecidableEq κ] {k : κ} {v : α} {m : List (κ × α)}
    (h : getKV k m = some v) : v ∈ valuesKV m :=
  List.mem_map_of_mem Prod.snd (mem_of_getKV_eq_some h)

theorem mem_valuesKV_insertKV {κ α : Type} [DecidableEq κ] {k : κ} {v : α} {m : List (κ × α)}
    {x : α} (h : x ∈ valuesKV (insertKV k v m)) : x = v ∨ x ∈ valuesKV m := by
  induction m with
  | nil =>
    simp [insertKV, valuesKV] at h
    exact Or.inl h
  | cons kv rest ih =>
    obtain ⟨k', v'⟩ := kv
    by_cases h' : k = k'
    · simp [insertKV, valuesKV, h'] at h ⊢
      tauto
    · simp [insertKV, valuesKV, h'] at h ⊢
      rcases h with h | h
      · tauto
      · rcases ih (by simpa [valuesKV] using h) with h'' | h''
        · tauto
        · simp [valuesKV] at h''
          tauto

theorem getKV_eq_some_of_mem {κ α : Type} [DecidableEq κ] {k : κ} {v : α} :
    ∀ {m : List (κ × α)}, (k, v) ∈ m → (m.map Prod.fst).Nodup → getKV k m = some v := by
  intro m
  induction m with
  | nil => simp
  | cons kv rest ih =>
    obtain ⟨k', v'⟩ := kv
    intro hmem hnd
    rw [List.map_cons, List.nodup_cons] at hnd
    rcases List.mem_cons.mp hmem with h | h
    · rw [Prod.mk.injEq] at h
      obtain ⟨rfl, rfl⟩ := h
      simp [getKV]
    · have hmap : k ∈ rest.map Prod.fst := List.mem_map_of_mem Prod.fst h
      have hk : k ≠ k' := fun hkk => hnd.1 (hkk ▸ hmap)
      simp only [getKV, if_neg hk]
      exact ih h hnd.2

theorem getKV_foldl_ne (f : Loan → Loan) (k : String) :
    ∀ (L : List Loan) (m0 : List (String × Loan)), (∀ l ∈ L, l.id ≠ k) →
      getKV k (L.foldl (fun m loan => insertKV loan.id (f loan) m) m0) = getKV k m0 := by
  intro L
  induction L with
  | nil => intro m0 _; rfl
  | cons a t ih =>
    intro m0 h
    have ha : a.id ≠ k := h a (List.mem_cons_self a t)
    have ht : ∀ l ∈ t, l.id ≠ k := fun l hl => h l (List.mem_cons_of_mem a hl)
    calc getKV k ((a :: t).foldl (fun m loan => insertKV loan.id (f loan) m) m0)
        = getKV k (t.foldl (fun m loan => insertKV loan.id (f loan) m)
            (insertKV a.id (f a) m0)) := rfl
      _ = getKV k (insertKV a.id (f a) m0) := ih _ ht
      _ = getKV k m0 := getKV_insertKV_ne _ _ (Ne.symm ha)

theorem getKV_foldl_mem (f : Loan → Loan) :
    ∀ (L : List Loan) (m0 : List (String × Loan)), (L.map Loan.id).Nodup → ∀ ℓ ∈ L,
      getKV ℓ.id (L.foldl (fun m loan => insertKV loan.id (f loan) m) m0) = some (f ℓ) := by
  intro L
  induction L with
  | nil => intro m0 _ ℓ h; exact absurd h (List.not_mem_nil ℓ)
  | cons a t ih =>
    intro m0 hnd ℓ hmem
    rw [List.map_cons, List.nodup_cons] at hnd
    rcases List.mem_cons.mp hmem with rfl | h
    · have ht : ∀ l ∈ t, l.id ≠ ℓ.id := by
        intro l hl hle
        exact hnd.1 (hle ▸ List.mem_map_of_mem Loan.id hl)
      calc getKV ℓ.id ((ℓ :: t).foldl (fun m loan => insertKV loan.id (f loan) m) m0)
          = getKV ℓ.id (t.foldl (fun m loan => insertKV loan.id (f loan) m)
              (insertKV ℓ.id (f ℓ) m0)) := rfl
        _ = getKV ℓ.id (insertKV ℓ.id (f ℓ) m0) := getKV_foldl_ne f ℓ.id t _ ht
        _ = some (f ℓ) := getKV_insertKV_self _ _ _
    · exact ih _ hnd.2 ℓ h

theorem automate_foldl_none (now : Int) :
    ∀ (L : List Loan), L.foldl (automateStep now) none = none := by
  intro L
  induction L with
  | nil => rfl
  | cons a t ih => exact ih

theorem automate_foldl_ne (now : Int) (k : String) :
    ∀ (L : List Loan) (m0 m' : List (String × Loan)), (∀ l ∈ L, l.id ≠ k) →
      L.foldl (automateStep now) (some m0) = some m' → getKV k m' = getKV k m0 := by
  intro L
  induction L with
  | nil =>
    intro m0 m' _ hfold
    cases hfold
    rfl
  | cons a t ih =>
    intro m0 m' h hfold
    have ha : a.id ≠ k := h a (List.mem_cons_self a t)
    have ht : ∀ l ∈ t, l.id ≠ k := fun l hl => h l (List.mem_cons_of_mem a hl)
    rcases hr : calculateRepaymentAmount now a with _ | r
    · rw [List.foldl_cons, show automateStep now (some m0) a = none by
        simp [automateStep, hr], automate_foldl_none now t] at hfold
      cases hfold
    · rw [List.foldl_cons, show automateStep now (some m0) a
          = some (insertKV a.id { a with amount := a.amount - r } m0) by
        simp [automateStep, hr]] at hfold
      calc getKV k m' = getKV k (insertKV a.id { a with amount := a.amount - r } m0) :=
            ih _ _ ht hfold
        _ = getKV k m0 := getKV_insertKV_ne _ _ (Ne.symm ha)

theorem automate_foldl_mem (now : Int) :
    ∀ (L : List Loan) (m0 m' : List (String × Loan)), (L.map Loan.id).Nodup →
      L.foldl (automateStep now) (some m0) = some m' → ∀ ℓ ∈ L,
      ∃ r, calculateRepaymentAmount now ℓ = some r ∧
        getKV ℓ.id m' = some { ℓ with amount := ℓ.amount - r } := by
  intro L
  induction L with
  | nil =>
    intro m0 m' _ _ ℓ h
    exact absurd h (List.not_mem_nil ℓ)
  | cons a t ih =>
    intro m0 m' hnd hfold ℓ hmem
    rw [List.map_cons, List.nodup_cons] at hnd
    rcases hr : calculateRepaymentAmount now a with _ | r
    · rw [List.foldl_cons, show automateStep now (some m0) a = none by
        simp [automateStep, hr], automate_foldl_none now t] at hfold
      cases hfold
    · rw [List.foldl_cons, show automateStep now (some m0) a
          = some (insertKV a.id { a with amount := a.amount - r } m0) by
        simp [automateStep, hr]] at hfold
      rcases List.mem_cons.mp hmem with rfl | h
      · refine ⟨r, hr, ?_⟩
        have ht : ∀ l ∈ t, l.id ≠ ℓ.id := by
          intro l hl hle
          exact hnd.1 (hle ▸ List.mem_map_of_mem Loan.id hl)
        calc getKV ℓ.id m'
            = getKV ℓ.id (insertKV ℓ.id { ℓ with amount := ℓ.amount - r } m0) :=
              automate_foldl_ne now ℓ.id t _ _ ht hfold
          _ = some { ℓ with amount := ℓ.amount - r } := getKV_insertKV_self _ _ _
      · exact ih _ _ hnd.2 hfold ℓ h

theorem LoansWF.key_eq_id {m : List (String × Loan)} {k : String} {l : Loan}
    (hwf : LoansWF m) (hget : getKV k m = some l) : k = l.id :=
  hwf.1 (k, l) (mem_of_getKV_eq_some hget)

theorem LoansWF.values_ids_nodup {m : List (String × Loan)} (hwf : LoansWF m) :
    ((valuesKV m).map Loan.id).Nodup := by
  have hmap : (valuesKV m).map Loan.id = m.map Prod.fst := by
    unfold valuesKV
    rw [List.map_map]
    exact (List.map_congr_left fun kv hkv => (hwf.1 kv hkv).symm)
  rw [hmap]
  exact hwf.2

theorem filtered_ids_nodup {m : List (String × Loan)} (hwf : LoansWF m) (p : Loan → Bool) :
    (((valuesKV m).filter p).map Loan.id).Nodup :=
  hwf.values_ids_nodup.sublist ((List.filter_sublist (valuesKV m)).map Loan.id)

theorem values_eq_of_id_eq {m : List (String × Loan)} (hwf : LoansWF m) {l₁ l₂ : Loan}
    (h₁ : l₁ ∈ valuesKV m) (h₂ : l₂ ∈ valuesKV m) (hid : l₁.id = l₂.id) : l₁ = l₂ :=
  List.inj_on_of_nodup_map hwf.values_ids_nodup h₁ h₂ hid

theorem checkForDefault_eq (s : State) : checkForDefault s = ([], s) := by
  unfold checkForDefault
  have hfilter : (valuesKV s.loansStorage).filter loanIsDefaulted = [] := by
    simp [loanIsDefaulted]
  rw [hfilter]
  rfl

theorem lendersNone_insertKV {m : List (String × Loan)} {k : String} {v : Loan}
    (hm : LendersNone m) (hv : v.lender = none) : LendersNone (insertKV k v m) := by
  intro l hl
  rcases mem_valuesKV_insertKV hl with rfl | hl'
  · exact hv
  · exact hm l hl'

theorem lendersNone_foldl (f : Loan → Loan) :
    ∀ (L : List Loan) (m0 : List (String × Loan)), (∀ l ∈ L, (f l).lender = none) →
      LendersNone m0 → LendersNone (L.foldl (fun m loan => insertKV loan.id (f loan) m) m0) := by
  intro L
  induction L with
  | nil => intro m0 _ hm; exact hm
  | cons a t ih =>
    intro m0 h hm
    exact ih _ (fun l hl => h l (List.mem_cons_of_mem a hl))
      (lendersNone_insertKV hm (h a (List.mem_cons_self a t)))

theorem lendersNone_automate_foldl (now : Int) :
    ∀ (L : List Loan) (m0 m' : List (String × Loan)), (∀ l ∈ L, l.lender = none) →
      LendersNone m0 → L.foldl (automateStep now) (some m0) = some m' → LendersNone m' := by
  intro L
  induction L with
  | nil =>
    intro m0 m' _ hm hfold
    cases hfold
    exact hm
  | cons a t ih =>
    intro m0 m' h hm hfold
    rcases hr : calculateRepaymentAmount now a with _ | r
    · rw [List.foldl_cons, show automateStep now (some m0) a = none by
        simp [automateStep, hr], automate_foldl_none now t] at hfold
      cases hfold
    · rw [List.foldl_cons, show automateStep now (some m0) a
          = some (insertKV a.id { a with amount := a.amount - r } m0) by
        simp [automateStep, hr]] at hfold
      exact ih (insertKV a.id { a with amount := a.amount - r } m0) m'
        (fun l hl => h l (List.mem_cons_of_mem a hl))
        (lendersNone_insertKV hm (h a (List.mem_cons_self a t))) hfold

theorem lenderFree_registerUser {s : State} (h : LenderFree s) (caller : Principal)
    (name : String) : LenderFree (registerUser caller name s).2 := h

theorem lenderFree_saveFunds {s : State} (h : LenderFree s) (caller : Principal)
    (amount : Int) : LenderFree (saveFunds caller amount s).2 := by
  unfold saveFunds
  rcases getKV caller s.userProfiles with _ | user
  · exact h
  · exact h

theorem lenderFree_createLoanRequest {s : State} (h : LenderFree s) (caller : Principal)
    (freshId : String) (request : LoanRequest) :
    LenderFree (createLoanRequest caller freshId request s).2 := h

theorem lenderFree_acceptLoanRequest {s : State} (h : LenderFree s) (caller : Principal)
    (now : Int) (freshId loanRequestId : String) :
    LenderFree (acceptLoanRequest caller now freshId loanRequestId s).2 := by
  unfold acceptLoanRequest
  rcases getKV (ReqKey.text loanRequestId) s.loanRequestsStorage with _ | request
  · exact h
  · exact lendersNone_insertKV h rfl

theorem lenderFree_makeRepayment {s : State} (h : LenderFree s) (loanId : String)
    (amount : Int) : LenderFree (makeRepayment loanId amount s).2 := by
  unfold makeRepayment
  rcases hget : getKV loanId s.loansStorage with _ | loan
  · exact h
  · simp only [loanIsFullyRepaid, if_neg (Bool.false_ne_true ∘ id)]
    exact h

theorem lenderFree_checkForDefault {s : State} (h : LenderFree s) :
    LenderFree (checkForDefault s).2 := by
  rw [checkForDefault_eq]
  exact h

theorem lenderFree_modifyLoanTerms {s : State} (h : LenderFree s) (now : Int)
    (loanId : String) (newTerms : LoanRequest) :
    LenderFree (modifyLoanTerms now loanId newTerms s).2 := by
  unfold modifyLoanTerms
  rcases hget : getKV loanId s.loansStorage with _ | loan
  · exact h
  · rcases hact : isActiveACTIVE loan with _ | _
    · simpa [hact] using h
    · simp only [hact, Bool.not_true]
      refine lendersNone_insertKV h ?_
      exact h loan (mem_valuesKV_of_getKV hget)

theorem lenderFree_accumulateInterest {s : State} (h : LenderFree s) (now : Int) :
    LenderFree (accumulateInterest now s).2 := by
  unfold accumulateInterest
  refine lendersNone_foldl _ _ _ ?_ h
  intro l hl
  exact h l (List.mem_of_mem_filter hl)

theorem lenderFree_automateLoanRepayment {s : State} (h : LenderFree s) (now : Int)
    {ids : List String} {s' : State} (hcall : automateLoanRepayment now s = some (ids, s')) :
    LenderFree s' := by
  simp only [automateLoanRepayment] at hcall
  split at hcall
  · cases hcall
  · next loans' hfold =>
    cases hcall
    exact lendersNone_automate_foldl now _ _ _
      (fun l hl => h l (List.mem_of_mem_filter hl)) h hfold

theorem lenderFree_requestLoanExtension {s : State} (h : LenderFree s) (now : Int)
    (loanId : String) (newDuration : Int) :
    LenderFree (requestLoanExtension now loanId newDuration s).2 := by
  unfold requestLoanExtension
  rcases hget : getKV loanId s.loansStorage with _ | loan
  · exact h
  · dsimp only
    split
    · exact h
    · split
      · exact h
      · exact lendersNone_insertKV h (h loan (mem_valuesKV_of_getKV hget))

theorem reachable_lenderFree {s : State} (h : Reachable s) : LenderFree s := by
  induction h with
  | init => intro l hl; exact absurd hl (List.not_mem_nil l)
  | registerUser caller name s _ ih => exact lenderFree_registerUser ih caller name
  | saveFunds caller amount s _ ih => exact lenderFree_saveFunds ih caller amount
  | createLoanRequest caller freshId request s _ ih =>
    exact lenderFree_createLoanRequest ih caller freshId request
  | acceptLoanRequest caller now freshId loanRequestId s _ ih =>
    exact lenderFree_acceptLoanRequest ih caller now freshId loanRequestId
  | makeRepayment loanId amount s _ ih => exact lenderFree_makeRepayment ih loanId amount
  | checkForDefault s _ ih => exact lenderFree_checkForDefault ih
  | modifyLoanTerms now loanId newTerms s _ ih =>
    exact lenderFree_modifyLoanTerms ih now loanId newTerms
  | accumulateInterest now s _ ih => exact lenderFree_accumulateInterest ih now
  | automateLoanRepayment now s ids s' _ hcall ih =>
    exact lenderFree_automateLoanRepayment ih now hcall
  | requestLoanExtension now loanId newDuration s _ ih =>
    exact lenderFree_requestLoanExtension ih now loanId newDuration

theorem isActiveACTIVE_iff (loan : Loan) :
    isActiveACTIVE loan = true ↔ loan.status = LoanStatus.Active "ACTIVE" := by
  unfold isActiveACTIVE
  cases h : loan.status <;> simp [h]

/-- C1: the claim says that after a successful `createLoanRequest` returning
the generated id `r`, `acceptLoanRequest r` finds the stored request and
creates a loan.  On the code this fails: `createLoanRequest` stores the
request under the caller's principal (`ic.caller()`) while returning the
fresh uuid `r`, and `acceptLoanRequest` looks `r` itself up as a key, so it
always answers `NotFound` and creates nothing.  This theorem evaluates the
code at the failing input: caller `"alice"`, request `sampleRequest`,
generated id `"r1"`, starting from a fresh canister. -/
theorem c1_accept_after_create_not_found :
    (createLoanRequest "alice" "r1" sampleRequest initState).1 = Except.ok "r1"
    ∧ getKV (ReqKey.principal "alice") c1State.loanRequestsStorage = some sampleRequest
    ∧ acceptLoanRequest "alice" 0 "L1" "r1" c1State
        = (Except.error (Message.NotFound "Loan request with id=r1 not found"), c1State)
    ∧ c1State.loansStorage = [] := by
  decide

/-- C2: the claim says an Active loan past due with insufficient repayment
is set to Defaulted by `checkForDefault` and its id is returned.  On the
code `loanIsDefaulted` is the stub `return false`, so `checkForDefault`
never selects any loan: here the loan `c2Loan` has `dueDate = 3600 < 3601`
and zero repayments, yet the call returns no ids, changes nothing, and the
status stays Active.  (The claim's first half — calls before the due date
never change the status — holds trivially, since the call never changes any
status at all.) -/
theorem c2_check_for_default_is_stubbed :
    c2Loan.dueDate < 3601
    ∧ checkForDefault c2State = ([], c2State)
    ∧ getLoanStatus "L1" (checkForDefault c2State).2 = Except.ok (LoanStatus.Active "ACTIVE")
    ∧ checkForDefault (checkForDefault c2State).2 = ([], c2State) := by
  decide

/-- C3: the claim says a repayment reaching principal plus interest turns
the loan Completed and a further repayment fails with `InvalidPayload`.
On the code `makeRepayment` never records amounts and `loanIsFullyRepaid`
is the stub `return false`, so after `makeRepayment "L3" 1050` the loan is
still Active and the second repayment succeeds with `Ok` instead of failing. -/
theorem c3_make_repayment_is_stubbed :
    makeRepayment "L3" 1050 c3State
        = (Except.ok "Repayment of 1050 for loan id=L3 successful", c3State)
    ∧ getLoanStatus "L3" (makeRepayment "L3" 1050 c3State).2
        = Except.ok (LoanStatus.Active "ACTIVE")
    ∧ makeRepayment "L3" 1050 (makeRepayment "L3" 1050 c3State).2
        = (Except.ok "Repayment of 1050 for loan id=L3 successful", c3State) := by
  decide

/-- C4 counterexample: the Defaulted loan `c4Loan` (terminal status, past
due at time 10) is selected by `automateLoanRepayment`, which checks only
`now >= dueDate` and not the status: the sweep rewrites its amount from
1000 to 900 and reports its id, so a non-Active loan is mutated by a batch
sweep, contradicting the claim. -/
theorem c4_terminal_loan_mutated_by_sweep :
    c4Loan.status = LoanStatus.Defaulted "DEFAULTED"
    ∧ automateLoanRepayment 10 c4State
        = some (["D1"], ⟨[("D1", { c4Loan with amount := 900 })], [], []⟩)
    ∧ ({ c4Loan with amount := 900 } : Loan) ≠ c4Loan := by
  decide

/-- C8: the claim says the division in `calculateRepaymentAmount` is
guarded so the sweep signals `InvalidPayload` instead of trapping on a
loan with `duration == 0`.  The code has no guard: `loan.amount /
loan.duration` is an unguarded bigint division, which throws on `0n`
(modelled as `none`), so the whole `automateLoanRepayment` call traps
(returns `none`, no state survives) — no `InvalidPayload` is produced. -/
theorem c8_zero_duration_division_traps :
    c8Loan.duration = 0
    ∧ shouldAutomateRepayment 5 c8Loan = true
    ∧ calculateRepaymentAmount 5 c8Loan = none
    ∧ automateLoanRepayment 5 c8State = none := by
  decide

/-- C7 counterexample: for the Active loan `c7Loan` (`amount = 1`,
`interestRate = 50`, `creationDate = 0`) at `now = 63072000` (two years),
the spec's single-floor formula yields 1, but the code computes
`1 * 50 / 100n` first, truncating to 0, so `accumulateInterest` adds 0 and
leaves the loan unchanged — the accrual step does not add the spec's
single-floor value. -/
theorem c7_single_floor_formula_fails :
    specSimpleInterest 1 50 63072000 0 = 1
    ∧ calculateAccumulatedInterest 63072000 c7Loan = 0
    ∧ accumulateInterest 63072000 c7State = (["I1"], c7State) := by
  decide

/-- C5: whenever the request lookup in `acceptLoanRequest` succeeds, the
call returns `Ok` with a loan whose status is `Active`, whose
`creationDate` is the current time, whose `dueDate` is
`creationDate + duration` of the request, and whose lender is absent; the
loan is stored under its id. -/
theorem c5_accept_builds_active_loan (caller : Principal) (now : Int)
    (freshId loanRequestId : String) (s : State) (request : LoanRequest)
    (hget : getKV (ReqKey.text loanRequestId) s.loanRequestsStorage = some request) :
    ∃ loan, acceptLoanRequest caller now freshId loanRequestId s
        = (Except.ok loan, { s with loansStorage := insertKV loan.id loan s.loansStorage })
      ∧ loan.status = LoanStatus.Active "ACTIVE"
      ∧ loan.creationDate = now
      ∧ loan.dueDate = loan.creationDate + request.duration
      ∧ loan.lender = none := by
  unfold acceptLoanRequest
  rw [hget]
  exact ⟨_, rfl, rfl, rfl, rfl, rfl⟩

theorem c5_witness :
    getKV (ReqKey.text "r1") c5State.loanRequestsStorage = some sampleRequest
    ∧ ∃ loan, acceptLoanRequest "alice" 0 "L1" "r1" c5State
        = (Except.ok loan, { c5State with loansStorage := insertKV loan.id loan c5State.loansStorage })
      ∧ loan.status = LoanStatus.Active "ACTIVE"
      ∧ loan.creationDate = 0
      ∧ loan.dueDate = loan.creationDate + sampleRequest.duration
      ∧ loan.lender = none :=
  ⟨by decide, c5_accept_builds_active_loan "alice" 0 "L1" "r1" c5State sampleRequest (by decide)⟩

/-- C9: for an existing loan and any repayment amount (including 0),
`makeRepayment` returns `Ok` with its success message and the state —
all three stores — is returned exactly as it was: the stub
`loanIsFullyRepaid` is `false`, so the lone mutation is never reached. -/
theorem c9_make_repayment_no_effect (loanId : String) (amt : Int) (s : State) (loan : Loan)
    (hget : getKV loanId s.loansStorage = some loan) :
    makeRepayment loanId amt s
      = (Except.ok ("Repayment of " ++ toString amt ++ " for loan id=" ++ loanId ++ " successful"), s) := by
  unfold makeRepayment
  rw [hget]
  simp [loanIsFullyRepaid]

theorem c9_witness :
    getKV "L9" c9State.loansStorage = some c9Loan
    ∧ makeRepayment "L9" 0 c9State
        = (Except.ok ("Repayment of " ++ toString (0 : Int) ++ " for loan id=" ++ "L9" ++ " successful"), c9State) :=
  ⟨by decide, c9_make_repayment_no_effect "L9" 0 c9State c9Loan (by decide)⟩

theorem requestLoanExtension_eq (now : Int) (loanId : String) (newDuration : Int)
    (s : State) (loan : Loan) (hget : getKV loanId s.loansStorage = some loan) :
    requestLoanExtension now loanId newDuration s =
      if !(isActiveACTIVE loan) then
        (Except.error (Message.InvalidPayload "Loan extension is only allowed for active loans."), s)
      else if newDuration ≤ loan.duration then
        (Except.error (Message.InvalidPayload "New duration must be longer than the current duration."), s)
      else
        (Except.ok (extendedLoan now newDuration loan),
         { s with loansStorage := insertKV loan.id (extendedLoan now newDuration loan) s.loansStorage }) := by
  unfold requestLoanExtension extendedLoan
  rw [hget]

theorem modifyLoanTerms_eq (now : Int) (loanId : String) (newTerms : LoanRequest)
    (s : State) (loan : Loan) (hget : getKV loanId s.loansStorage = some loan) :
    modifyLoanTerms now loanId newTerms s =
      if !(isActiveACTIVE loan) then
        (Except.error (Message.InvalidPayload "Loan modification is only allowed for active loans."), s)
      else
        (Except.ok (modifiedLoan now newTerms loan),
         { s with loansStorage := insertKV loan.id (modifiedLoan now newTerms loan) s.loansStorage }) := by
  unfold modifyLoanTerms modifiedLoan
  rw [hget]

/-- C6: for an existing loan, `requestLoanExtension` fails with
`InvalidPayload` exactly when the loan is not Active (the program's
active status is `Active "ACTIVE"`) or the new duration is not larger
than the current one; otherwise it succeeds, storing duration
`newDuration` and due date `now + newDuration`.  And `modifyLoanTerms`
on a Completed or Defaulted loan always fails with `InvalidPayload`. -/
theorem c6_extension_and_modification_guards (now : Int) (loanId : String)
    (newDuration : Int) (s : State) (loan : Loan)
    (hget : getKV loanId s.loansStorage = some loan) (hid : loan.id = loanId) :
    ((∃ m, (requestLoanExtension now loanId newDuration s).1
          = Except.error (Message.InvalidPayload m))
        ↔ (loan.status ≠ LoanStatus.Active "ACTIVE" ∨ newDuration ≤ loan.duration))
    ∧ (loan.status = LoanStatus.Active "ACTIVE" → loan.duration < newDuration →
        ∃ loan', (requestLoanExtension now loanId newDuration s).1 = Except.ok loan'
          ∧ loan'.duration = newDuration ∧ loan'.dueDate = now + newDuration
          ∧ getKV loanId (requestLoanExtension now loanId newDuration s).2.loansStorage = some loan')
    ∧ (∀ newTerms : LoanRequest,
        (loan.status = LoanStatus.Completed "COMPLETED" ∨ loan.status = LoanStatus.Defaulted "DEFAULTED") →
        ∃ m, (modifyLoanTerms now loanId newTerms s).1 = Except.error (Message.InvalidPayload m)) := by
  rw [requestLoanExtension_eq now loanId newDuration s loan hget]
  refine ⟨?_, ?_, ?_⟩
  · constructor
    · rintro ⟨m, hm⟩
      by_contra hcon
      push_neg at hcon
      obtain ⟨hact, hlt⟩ := hcon
      have hact' : isActiveACTIVE loan = true := (isActiveACTIVE_iff loan).mpr hact
      rw [hact'] at hm
      simp [not_le.mpr hlt] at hm
    · intro hcase
      rcases hcase with hna | hle
      · have hact : isActiveACTIVE loan = false := by
          rcases hb : isActiveACTIVE loan with _ | _
          · rfl
          · exact absurd ((isActiveACTIVE_iff loan).mp hb) hna
        rw [hact]
        exact ⟨_, rfl⟩
      · rcases hb : isActiveACTIVE loan with _ | _
        · exact ⟨_, rfl⟩
        · simp only [hb, Bool.not_true, Bool.false_eq_true, if_false, if_pos hle]
          exact ⟨_, rfl⟩
  · intro hactive hlt
    have hact : isActiveACTIVE loan = true := (isActiveACTIVE_iff loan).mpr hactive
    rw [hact]
    simp only [Bool.not_true, Bool.false_eq_true, if_false, if_neg (not_le.mpr hlt)]
    refine ⟨_, rfl, rfl, rfl, ?_⟩
    rw [← hid]
    exact getKV_insertKV_self _ _ _
  · intro newTerms hterm
    have hact : isActiveACTIVE loan = false := by
      rcases hb : isActiveACTIVE loan with _ | _
      · rfl
      · have := (isActiveACTIVE_iff loan).mp hb
        rcases hterm with h | h <;> rw [this] at h <;> cases h
    rw [modifyLoanTerms_eq now loanId newTerms s loan hget, hact]
    exact ⟨_, rfl⟩

theorem c6_witness :
    getKV "L6" c6State.loansStorage = some c6Loan ∧ c6Loan.id = "L6"
    ∧ (((∃ m, (requestLoanExtension 100 "L6" 7200 c6State).1
          = Except.error (Message.InvalidPayload m))
        ↔ (c6Loan.status ≠ LoanStatus.Active "ACTIVE" ∨ (7200 : Int) ≤ c6Loan.duration))
      ∧ (c6Loan.status = LoanStatus.Active "ACTIVE" → c6Loan.duration < 7200 →
          ∃ loan', (requestLoanExtension 100 "L6" 7200 c6State).1 = Except.ok loan'
            ∧ loan'.duration = 7200 ∧ loan'.dueDate = 100 + 7200
            ∧ getKV "L6" (requestLoanExtension 100 "L6" 7200 c6State).2.loansStorage = some loan')
      ∧ (∀ newTerms : LoanRequest,
          (c6Loan.status = LoanStatus.Completed "COMPLETED" ∨ c6Loan.status = LoanStatus.Defaulted "DEFAULTED") →
          ∃ m, (modifyLoanTerms 100 "L6" newTerms c6State).1 = Except.error (Message.InvalidPayload m))) :=
  ⟨by decide, by decide,
   c6_extension_and_modification_guards 100 "L6" 7200 c6State c6Loan (by decide) (by decide)⟩

/-- C4 (amended): `accumulateInterest` and `checkForDefault` leave every
non-Active loan unchanged, and `automateLoanRepayment` leaves a non-Active
loan unchanged only while `now < dueDate`: the sweep selects loans solely
by `now >= dueDate`, ignoring status, so once a Completed or Defaulted
loan is past due the sweep deducts the computed repayment from it (see the
counterexample). -/
theorem c4_terminal_loans_and_sweeps (now : Int) (loanId : String) (s : State) (loan : Loan)
    (hwf : LoansWF s.loansStorage)
    (hget : getKV loanId s.loansStorage = some loan)
    (hna : isActiveACTIVE loan = false) :
    getKV loanId (accumulateInterest now s).2.loansStorage = some loan
    ∧ getKV loanId (checkForDefault s).2.loansStorage = some loan
    ∧ (now < loan.dueDate → ∀ ids s', automateLoanRepayment now s = some (ids, s') →
        getKV loanId s'.loansStorage = some loan)
    ∧ (loan.dueDate ≤ now → ∀ ids s', automateLoanRepayment now s = some (ids, s') →
        ∃ r, calculateRepaymentAmount now loan = some r ∧
          getKV loanId s'.loansStorage = some { loan with amount := loan.amount - r }) := by
  have hkid : loanId = loan.id := hwf.key_eq_id hget
  have hmemv : loan ∈ valuesKV s.loansStorage := mem_valuesKV_of_getKV hget
  have huniq : ∀ l ∈ valuesKV s.loansStorage, l.id = loan.id → l = loan := by
    intro l hl hlid
    exact values_eq_of_id_eq hwf hl hmemv hlid
  refine ⟨?_, ?_, ?_, ?_⟩
  · have hne : ∀ l ∈ (valuesKV s.loansStorage).filter isActiveACTIVE, l.id ≠ loanId := by
      intro l hl hcontra
      have hlv : l ∈ valuesKV s.loansStorage := List.mem_of_mem_filter hl
      have hleq : l = loan := huniq l hlv (hkid ▸ hcontra)
      have : isActiveACTIVE l = true := List.of_mem_filter hl
      rw [hleq, hna] at this
      cases this
    exact (getKV_foldl_ne
      (fun l => { l with amount := l.amount + calculateAccumulatedInterest now l })
      loanId _ s.loansStorage hne).trans hget
  · rw [checkForDefault_eq]
    exact hget
  · intro hlt ids s' hcall
    have hne : ∀ l ∈ (valuesKV s.loansStorage).filter (shouldAutomateRepayment now),
        l.id ≠ loanId := by
      intro l hl hcontra
      have hlv : l ∈ valuesKV s.loansStorage := List.mem_of_mem_filter hl
      have hleq : l = loan := huniq l hlv (hkid ▸ hcontra)
      have hsel : shouldAutomateRepayment now l = true := List.of_mem_filter hl
      rw [hleq] at hsel
      exact absurd (of_decide_eq_true hsel) (not_le.mpr hlt)
    simp only [automateLoanRepayment] at hcall
    split at hcall
    · cases hcall
    · next loans' hfold =>
      cases hcall
      exact (automate_foldl_ne now loanId _ s.loansStorage loans' hne hfold).trans hget
  · intro hdue ids s' hcall
    have hmemf : loan ∈ (valuesKV s.loansStorage).filter (shouldAutomateRepayment now) :=
      List.mem_filter.mpr ⟨hmemv, decide_eq_true hdue⟩
    have hnd := filtered_ids_nodup hwf (shouldAutomateRepayment now)
    simp only [automateLoanRepayment] at hcall
    split at hcall
    · cases hcall
    · next loans' hfold =>
      cases hcall
      obtain ⟨r, hr, hkv⟩ := automate_foldl_mem now _ s.loansStorage loans' hnd hfold loan hmemf
      exact ⟨r, hr, hkid ▸ hkv⟩

theorem c4_terminal_loans_witness :
    LoansWF c4wState.loansStorage
    ∧ getKV "K1" c4wState.loansStorage = some c4wLoan
    ∧ isActiveACTIVE c4wLoan = false
    ∧ (getKV "K1" (accumulateInterest 5 c4wState).2.loansStorage = some c4wLoan
      ∧ getKV "K1" (checkForDefault c4wState).2.loansStorage = some c4wLoan
      ∧ ((5 : Int) < c4wLoan.dueDate → ∀ ids s', automateLoanRepayment 5 c4wState = some (ids, s') →
          getKV "K1" s'.loansStorage = some c4wLoan)
      ∧ (c4wLoan.dueDate ≤ 5 → ∀ ids s', automateLoanRepayment 5 c4wState = some (ids, s') →
          ∃ r, calculateRepaymentAmount 5 c4wLoan = some r ∧
            getKV "K1" s'.loansStorage = some { c4wLoan with amount := c4wLoan.amount - r })) :=
  ⟨⟨by decide, by decide⟩, by decide, by decide,
   c4_terminal_loans_and_sweeps 5 "K1" c4wState c4wLoan ⟨by decide, by decide⟩ (by decide) (by decide)⟩

/-- C7 (amended): one accrual step of `accumulateInterest` adds to an
Active loan exactly the code's double-truncation value
`tdiv (tdiv (amount * interestRate) 100 * (now - creationDate)) (365*24*60*60)`
— truncating division is applied first to `amount * interestRate / 100`
and again at the end, not as the spec's single floor over the exact
product (the counterexample shows the two disagree). -/
theorem c7_accrual_adds_code_formula (now : Int) (loanId : String) (s : State) (loan : Loan)
    (hwf : LoansWF s.loansStorage)
    (hget : getKV loanId s.loansStorage = some loan)
    (hact : isActiveACTIVE loan = true) :
    getKV loanId (accumulateInterest now s).2.loansStorage
      = some { loan with amount := loan.amount + calculateAccumulatedInterest now loan }
    ∧ calculateAccumulatedInterest now loan
      = Int.tdiv (Int.tdiv (loan.amount * loan.interestRate) 100 * (now - loan.creationDate))
          (365 * 24 * 60 * 60) := by
  have hkid : loanId = loan.id := hwf.key_eq_id hget
  have hmemv : loan ∈ valuesKV s.loansStorage := mem_valuesKV_of_getKV hget
  have hmemf : loan ∈ (valuesKV s.loansStorage).filter isActiveACTIVE :=
    List.mem_filter.mpr ⟨hmemv, hact⟩
  have hnd := filtered_ids_nodup hwf isActiveACTIVE
  subst hkid
  refine ⟨?_, rfl⟩
  exact getKV_foldl_mem
    (fun l => { l with amount := l.amount + calculateAccumulatedInterest now l })
    _ s.loansStorage hnd loan hmemf

theorem c7_accrual_witness :
    LoansWF c7State.loansStorage
    ∧ getKV "I1" c7State.loansStorage = some c7Loan
    ∧ isActiveACTIVE c7Loan = true
    ∧ (getKV "I1" (accumulateInterest 63072000 c7State).2.loansStorage
        = some { c7Loan with amount := c7Loan.amount + calculateAccumulatedInterest 63072000 c7Loan }
      ∧ calculateAccumulatedInterest 63072000 c7Loan
        = Int.tdiv (Int.tdiv (c7Loan.amount * c7Loan.interestRate) 100 * (63072000 - c7Loan.creationDate))
            (365 * 24 * 60 * 60)) :=
  ⟨⟨by decide, by decide⟩, by decide, by decide,
   c7_accrual_adds_code_formula 63072000 "I1" c7State c7Loan ⟨by decide, by decide⟩ (by decide) (by decide)⟩

theorem filterUserLoans_all_borrower (u : Principal) :
    ∀ L : List Loan, (∀ loan ∈ L, loan.borrower == u) → filterUserLoans u L = some L := by
  intro L
  induction L with
  | nil => intro _; rfl
  | cons a t ih =>
    intro h
    have ha : (a.borrower == u) = true := h a (List.mem_cons_self a t)
    have ht : ∀ loan ∈ t, loan.borrower == u := fun l hl => h l (List.mem_cons_of_mem a hl)
    simp [filterUserLoans, ha, ih ht]

theorem filterUserLoans_trap (u : Principal) :
    ∀ (L : List Loan) (loan : Loan), loan ∈ L → loan.borrower ≠ u →
      filterUserLoans u L = none := by
  intro L
  induction L with
  | nil => intro loan h; exact absurd h (List.not_mem_nil loan)
  | cons a t ih =>
    intro loan hmem hne
    rcases List.mem_cons.mp hmem with rfl | h
    · have hb : (loan.borrower == u) = false := by
        rcases hbe : loan.borrower == u with _ | _
        · rfl
        · exact absurd (eq_of_beq hbe) hne
      simp [filterUserLoans, hb, lenderMatches, lenderNotNoneRef]
    · by_cases hb : a.borrower == u
      · simp [filterUserLoans, hb, ih loan h hne]
      · simp [filterUserLoans, hb, lenderMatches, lenderNotNoneRef]

/-- C10 counterexample: in the lender-free store `c10State` (one loan,
borrower `"alice"`, lender absent), the history query for `"bob"`
evaluates the lender branch on that loan and traps (`none`) instead of
returning the borrower-only result `[]`: the lender branch does not
quietly fail to match, so the filter does not degenerate to the
borrower-only filter asserted by the claim. -/
theorem c10_history_query_traps :
    c10Loan.lender = none
    ∧ valuesKV c10State.loansStorage = [c10Loan]
    ∧ getUserLoanHistory "bob" c10State = none
    ∧ (valuesKV c10State.loansStorage).filter (fun loan => loan.borrower == "bob") = [] := by
  decide

/-- C10 (amended): every state reachable from a fresh deployment stores
only lender-free loans — `acceptLoanRequest` creates loans with
`lender = None` and no operation ever writes the `lender` field — and the
lender branch of the `getUserLoanHistory` filter never evaluates to a
match; but not benignly: whenever the branch is evaluated it throws (the
reference test against the module constant `None` passes for every decoded
loan and `.toText()` is called on the Opt wrapper itself), so the query
returns the scanned list only when every stored loan belongs to the
queried borrower, and traps as soon as any stored loan does not. -/
theorem c10_lender_invariant_filter_traps :
    (∀ s, Reachable s → LenderFree s)
    ∧ (∀ (loan : Loan) (u : Principal), lenderMatches loan u = none)
    ∧ (∀ (s : State) (u : Principal), (∀ loan ∈ valuesKV s.loansStorage, loan.borrower == u) →
        getUserLoanHistory u s = some (valuesKV s.loansStorage))
    ∧ (∀ (s : State) (u : Principal) (loan : Loan), loan ∈ valuesKV s.loansStorage →
        loan.borrower ≠ u → getUserLoanHistory u s = none) := by
  refine ⟨fun s h => reachable_lenderFree h, fun loan u => rfl, ?_, ?_⟩
  · intro s u h
    exact filterUserLoans_all_borrower u _ h
  · intro s u loan hmem hne
    exact filterUserLoans_trap u _ loan hmem hne

theorem c10_lender_trap_witness :
    LenderFree initState
    ∧ lenderMatches c10Loan "bob" = none
    ∧ (∀ loan ∈ valuesKV c10State.loansStorage, loan.borrower == "alice")
    ∧ getUserLoanHistory "alice" c10State = some (valuesKV c10State.loansStorage)
    ∧ c10Loan ∈ valuesKV c10State.loansStorage
    ∧ c10Loan.borrower ≠ "bob"
    ∧ getUserLoanHistory "bob" c10State = none :=
  ⟨c10_lender_invariant_filter_traps.1 initState Reachable.init,
   c10_lender_invariant_filter_traps.2.1 c10Loan "bob",
   by decide,
   c10_lender_invariant_filter_traps.2.2.1 c10State "alice" (by decide),
   by decide,
   by decide,
   c10_lender_invariant_filter_traps.2.2.2 c10State "bob" c10Loan (by decide) (by decide)⟩

end LoanLedger
